import Mathlib

/-!
Verification development for a retrieval-augmented classification/chat service.

The service has two near-identical variants:
* a news-article classifier (`task_1`): a two-node LangGraph pipeline
  `retrieve → classify` over a Qdrant similarity index, fronted by a FastAPI
  endpoint that validates input and persists a history record, and
* a chatbot (`task_2`): a two-node pipeline `retrieve_context → generate_response`
  over a relational conversation history.

Python text values are embedded as `List Char` (Python `str` slicing and length
are character-based).  Stateful code is embedded as explicit state passing;
calls to external collaborators (OpenAI embeddings/LLM, the Qdrant index) are
embedded as explicit outcome parameters of type `Except` — an `Except.error`
models the collaborator raising an exception.
-/

/-- Python strings, embedded character-wise. -/
abbrev Str := List Char

/-- Decimal rendering of a natural number (Python `str(n)` / f-string interpolation). -/
def natStr (n : Nat) : Str := (toString n).toList

/-- Rendering of Python float format `:.2f` (two decimal places).  The source
formats IEEE floats; here numbers are embedded as rationals, and the binary
rounding of `:.2f` is abstracted to rational half-up rounding at two decimals.
No claim depends on the value produced by this formatter; it only appears in
informational log-message strings. -/
def format_2f (q : ℚ) : Str :=
  let n : Nat := (Rat.floor (q * 100 + 1 / 2)).toNat
  natStr (n / 100) ++ ".".toList ++
    (if n % 100 < 10 then "0".toList else []) ++ natStr (n % 100)

/-- `settings.categories` from `task_1/app/config.py`: the classification
category dictionary `{0: Politics, 1: Sport, 2: Technology, 3: Entertainment,
4: Business}`. -/
def categories : List (Nat × Str) :=
  [(0, "Politics".toList), (1, "Sport".toList), (2, "Technology".toList),
   (3, "Entertainment".toList), (4, "Business".toList)]

/-- Dictionary access `settings.categories[k]` (total variant: missing keys
give the empty string; the source only ever accesses key `0`, which exists). -/
def categories_get (k : Nat) : Str := (List.lookup k categories).getD []

/-- A retrieved similar example, as the dict built by
`NewsVectorStore.search_similar` (`task_1/app/vectorstore.py`, lines 122-132):
payload fields plus the similarity score. -/
structure Example where
  text : Str
  full_text : Str
  label : Nat
  category : Str
  score : ℚ
deriving DecidableEq, Repr

/-- A stored index point together with its cosine-similarity score against the
current query.  The embedding of the query and the cosine computation happen in
external collaborators (OpenAI embeddings and Qdrant), so a search is embedded
as a function of the scored index contents, listed in insertion order. -/
structure StoredHit where
  text : Str
  full_text : Str
  label : Nat
  category : Str
  score : ℚ
deriving DecidableEq, Repr

/-- A stored hit tagged with its insertion index (Qdrant point id: in
`index_training_data` the point id is the running dataframe row index, i.e.
insertion order). -/
structure ScoredPoint where
  id : Nat
  text : Str
  full_text : Str
  label : Nat
  category : Str
  score : ℚ
deriving DecidableEq, Repr

/-- Forgetting the insertion index gives the result dict of `search_similar`. -/
def toExample (p : ScoredPoint) : Example :=
  { text := p.text, full_text := p.full_text, label := p.label,
    category := p.category, score := p.score }

/-- Ranking order of search results: higher similarity first, ties broken by
insertion index (earlier-inserted first).  Modelled from the spec:
"return remaining neighbors ordered by descending similarity, ties broken by
index insertion order (stable)" — the ranking itself is performed inside the
external Qdrant collaborator. -/
def rank_before (a b : ScoredPoint) : Prop :=
  b.score < a.score ∨ (a.score = b.score ∧ a.id ≤ b.id)

instance : DecidableRel rank_before := fun a b => by
  unfold rank_before
  infer_instance

instance : IsTotal ScoredPoint rank_before := by
  constructor
  intro a b
  rcases lt_trichotomy a.score b.score with hlt | heq | hgt
  · exact Or.inr (Or.inl hlt)
  · rcases le_total a.id b.id with hid | hid
    · exact Or.inl (Or.inr ⟨heq, hid⟩)
    · exact Or.inr (Or.inr ⟨heq.symm, hid⟩)
  · exact Or.inl (Or.inl hgt)

instance : IsTrans ScoredPoint rank_before := by
  constructor
  intro a b c hab hbc
  rcases hab with hab | ⟨hab, haid⟩
  · rcases hbc with hbc | ⟨hbc, _⟩
    · exact Or.inl (hbc.trans hab)
    · exact Or.inl (hbc ▸ hab)
  · rcases hbc with hbc | ⟨hbc, hbid⟩
    · exact Or.inl (hab ▸ hbc)
    · exact Or.inr ⟨hab.trans hbc, haid.trans hbid⟩

/-- Tag each stored hit with its insertion index, starting from `i`. -/
def indexed_points_from : Nat → List StoredHit → List ScoredPoint
  | _, [] => []
  | i, h :: rest =>
    { id := i, text := h.text, full_text := h.full_text, label := h.label,
      category := h.category, score := h.score } :: indexed_points_from (i + 1) rest

/-- The index contents in insertion order, tagged with insertion indices. -/
def indexed_points (hits : List StoredHit) : List ScoredPoint :=
  indexed_points_from 0 hits

/-- The neighbors passing the score threshold.  Modelled from the spec:
"discard any neighbor whose similarity is strictly below `score_threshold`"
(the filtering is performed inside the external Qdrant collaborator via its
`score_threshold` search parameter). -/
def passing_points (hits : List StoredHit) (score_threshold : ℚ) : List ScoredPoint :=
  (indexed_points hits).filter (fun p => decide (score_threshold ≤ p.score))

/-- The ranked search result: passing neighbors ordered by descending
similarity (ties by insertion order), truncated to `limit`. -/
def ranked_points (hits : List StoredHit) (limit : Nat) (score_threshold : ℚ) :
    List ScoredPoint :=
  (List.insertionSort rank_before (passing_points hits score_threshold)).take limit

/-- `NewsVectorStore.search_similar` (`task_1/app/vectorstore.py`, lines
96-134): returns the ranked neighbors formatted as result dicts.  The Qdrant
query itself is the external collaborator; its documented contract (spec §4.1,
§6) is the ranking/filtering embedded in `ranked_points`. -/
def search_similar (hits : List StoredHit) (limit : Nat) (score_threshold : ℚ) :
    List Example :=
  (ranked_points hits limit score_threshold).map toExample

/-- `ClassifierState` (`task_1/app/state.py`).  The output fields start as
`None` in the initial state built by the endpoint (`main.py`, lines 119-129),
so they are embedded as `Option`; the LangChain message log is a list channel
with the `add_messages` (append) reducer. -/
structure ClassifierState where
  text : Str
  messages : List Str
  retrieved_examples : List Example
  predicted_label : Option Nat
  predicted_category : Option Str
  confidence : Option ℚ
  reasoning : Option Str
  retrieval_time : ℚ
  classification_time : ℚ
deriving DecidableEq, Repr

/-- A value appearing in a node's state-update dict (`Dict[str, Any]`). -/
inductive FieldValue where
  | examples (l : List Example)
  | natv (n : Nat)
  | strv (s : Str)
  | ratv (q : ℚ)
  | msgs (m : List Str)
deriving DecidableEq, Repr

/-- A node's returned update: the `Dict[str, Any]` of channel writes. -/
abbrev Update := List (String × FieldValue)

/-- Application of one channel write to the state, as performed by LangGraph:
every channel is last-value-wins except `messages`, whose `add_messages`
reducer appends.  Writes whose key is not a state channel (or whose value has
the wrong shape — never produced by the embedded nodes) are ignored. -/
def applyField (s : ClassifierState) (kv : String × FieldValue) : ClassifierState :=
  match kv with
  | ("text", FieldValue.strv t) => { s with text := t }
  | ("messages", FieldValue.msgs m) => { s with messages := s.messages ++ m }
  | ("retrieved_examples", FieldValue.examples l) => { s with retrieved_examples := l }
  | ("predicted_label", FieldValue.natv n) => { s with predicted_label := some n }
  | ("predicted_category", FieldValue.strv c) => { s with predicted_category := some c }
  | ("confidence", FieldValue.ratv q) => { s with confidence := some q }
  | ("reasoning", FieldValue.strv r) => { s with reasoning := some r }
  | ("retrieval_time", FieldValue.ratv q) => { s with retrieval_time := q }
  | ("classification_time", FieldValue.ratv q) => { s with classification_time := q }
  | _ => s

/-- Merge a node's update dict into the state. -/
def applyUpdate (s : ClassifierState) (u : Update) : ClassifierState :=
  u.foldl applyField s

/-- The initial state built by the `/classify` endpoint
(`task_1/app/main.py`, lines 119-129). -/
def initial_state (msg : Str) : ClassifierState :=
  { text := msg, messages := [], retrieved_examples := [],
    predicted_label := none, predicted_category := none,
    confidence := none, reasoning := none,
    retrieval_time := 0, classification_time := 0 }

/-- The system message recorded by `retrieve_node`
(`task_1/app/nodes.py`, lines 50-52). -/
def retrieval_message (similar_examples : List Example) : Str :=
  "Retrieved ".toList ++ natStr similar_examples.length ++
    " similar examples from training data".toList

/-- The update dict returned by `retrieve_node` on success
(`task_1/app/nodes.py`, lines 38-58): the top-5 search with threshold 0.6,
the elapsed retrieval time, and one log message. -/
def retrieve_update (hits : List StoredHit) (elapsed : ℚ) (state : ClassifierState) :
    Update :=
  let similar_examples := search_similar hits 5 (3 / 5)
  [("retrieved_examples", FieldValue.examples similar_examples),
   ("retrieval_time", FieldValue.ratv elapsed),
   ("messages", FieldValue.msgs [retrieval_message similar_examples])]

/-- `retrieve_node` (`task_1/app/nodes.py`, lines 23-58).  `outcome` is the
combined outcome of the external embedding + index calls inside
`search_similar`: the node has no `try`/`except`, so an exception propagates
unchanged (`Except.error`). -/
def retrieve_node (outcome : Except Str Unit) (hits : List StoredHit) (elapsed : ℚ)
    (state : ClassifierState) : Except Str Update :=
  Except.map (fun _ => retrieve_update hits elapsed state) outcome

/-- `ClassificationResult` (`task_1/app/nodes.py`, lines 14-20): the
structured-output schema requested from the LLM.  An output violating the
schema makes the provider wrapper raise, which is embedded as the `Except.error`
case of the provider outcome. -/
structure ClassificationResult where
  label : Nat
  category : Str
  confidence : ℚ
  reasoning : Str
deriving DecidableEq, Repr

/-- `_format_examples` (`task_1/app/nodes.py`, lines 137-157): few-shot block
of the system prompt; `enumerate(examples, 1)` ranks from 1. -/
def format_examples_entries : Nat → List Example → List Str
  | _, [] => []
  | i, ex :: rest =>
    ("Example ".toList ++ natStr i ++ " (Label: ".toList ++ natStr ex.label ++
      " - ".toList ++ ex.category ++ ", Similarity: ".toList ++
      format_2f ex.score ++ "):\n".toList ++ ex.text.take 300 ++ "...".toList)
    :: format_examples_entries (i + 1) rest

/-- `_format_examples` (`task_1/app/nodes.py`, lines 137-157). -/
def format_examples (examples : List Example) : Str :=
  if examples.isEmpty then "No similar examples found.".toList
  else List.intercalate "\n\n".toList (format_examples_entries 1 examples)

/-- The system prompt of `classify_node` (`task_1/app/nodes.py`, lines 88-101). -/
def classify_system_prompt (examples : List Example) : Str :=
  "You are a news article classifier. You must classify articles into one of these categories:\n\n0 - Politics: Government, elections, policies, international relations, politicians\n1 - Sport: Sports events, athletes, competitions, games\n2 - Technology: Tech companies, software, hardware, innovations, digital trends\n3 - Entertainment: Movies, music, celebrities, TV shows, arts, culture\n4 - Business: Economy, finance, markets, companies, business deals\n\nHere are similar examples from our training data to help you classify:\n\n".toList
  ++ format_examples examples
  ++ "\n\nBased on these examples, classify the new article below.\nBe consistent with the pattern you see in the examples.".toList

/-- The user message of `classify_node` (`task_1/app/nodes.py`, line 103):
the literal input text sliced to its first 2000 characters. -/
def classify_user_message (text : Str) : Str :=
  "Classify this article:\n\n".toList ++ text.take 2000

/-- A LangChain chat message sent to the provider. -/
inductive PromptMsg where
  | system (content : Str)
  | human (content : Str)
deriving DecidableEq, Repr

/-- The message list `classify_node` passes to the LLM provider
(`task_1/app/nodes.py`, lines 106-109). -/
def classify_prompt_messages (state : ClassifierState) : List PromptMsg :=
  [PromptMsg.system (classify_system_prompt state.retrieved_examples),
   PromptMsg.human (classify_user_message state.text)]

/-- The log message recorded by `classify_node` (`task_1/app/nodes.py`, line 133). -/
def classified_message (category : Str) (confidence : ℚ) : Str :=
  "Classified as ".toList ++ category ++ " with ".toList ++
    format_2f confidence ++ " confidence".toList

/-- The update dict returned by `classify_node` (`task_1/app/nodes.py`,
lines 127-134). -/
def mk_classify_update (label : Nat) (category : Str) (confidence : ℚ)
    (reasoning : Str) (elapsed : ℚ) : Update :=
  [("predicted_label", FieldValue.natv label),
   ("predicted_category", FieldValue.strv category),
   ("confidence", FieldValue.ratv confidence),
   ("reasoning", FieldValue.strv reasoning),
   ("classification_time", FieldValue.ratv elapsed),
   ("messages", FieldValue.msgs [classified_message category confidence])]

/-- `classify_node` (`task_1/app/nodes.py`, lines 61-134).  `llm_outcome` is
the outcome of the external provider call `model.invoke(messages)` (the
messages being `classify_prompt_messages`); the `try`/`except` at lines
111-123 converts any provider failure into the fallback values
`label = 0`, `category = settings.categories[0]`, `confidence = 0.0`,
`reasoning = "Error during classification: " + str(e)` — the node itself
always returns an update and never raises. -/
def classify_node (llm_outcome : Except Str ClassificationResult) (elapsed : ℚ)
    (state : ClassifierState) : Update :=
  match llm_outcome with
  | Except.ok r => mk_classify_update r.label r.category r.confidence r.reasoning elapsed
  | Except.error e =>
    mk_classify_update 0 (categories_get 0) 0
      ("Error during classification: ".toList ++ e) elapsed

/-- The nodes of the classifier graph (`task_1/app/graph.py`, lines 27-28). -/
inductive GNode where
  | retrieve
  | classify
deriving DecidableEq, BEq, Repr

/-- The edges of the classifier graph (`task_1/app/graph.py`, lines 31-33):
entry point `retrieve`, edge `retrieve → classify`, edge `classify → END`
(`none`). -/
def classifier_edges : List (GNode × Option GNode) :=
  [(GNode.retrieve, some GNode.classify), (GNode.classify, none)]

/-- `set_entry_point("retrieve")` (`task_1/app/graph.py`, line 31). -/
def classifier_entry : GNode := GNode.retrieve

/-- Successor of a node under the graph's edges. -/
def next_node (n : GNode) : Option GNode :=
  (List.lookup n classifier_edges).join

/-- The node sequence obtained by following successors from a start node
(fuel-bounded walk; the graph is finite and acyclic). -/
def trace_from {α : Type} (nx : α → Option α) : Nat → α → List α
  | 0, _ => []
  | Nat.succ fuel, n =>
    n :: (match nx n with
          | some m => trace_from nx fuel m
          | none => [])

/-- The execution order of the compiled classifier graph: the linear walk from
the entry point. -/
def classifier_trace : List GNode :=
  trace_from next_node 2 classifier_entry

/-- Outcomes of the external collaborator calls made during one pipeline run:
the embedding+index call of the Retrieval Stage, the scored index contents, the
LLM call of the Generation Stage, and the wall-clock durations measured by each
node. -/
structure ExternalWorld where
  retrieval_outcome : Except Str Unit
  hits : List StoredHit
  llm_outcome : Except Str ClassificationResult
  retrieval_elapsed : ℚ
  classification_elapsed : ℚ

/-- Dispatch one graph node to its implementation (`add_node` registrations,
`task_1/app/graph.py`, lines 27-28). -/
def step (w : ExternalWorld) (s : ClassifierState) : GNode → Except Str Update
  | GNode.retrieve => retrieve_node w.retrieval_outcome w.hits w.retrieval_elapsed s
  | GNode.classify => Except.ok (classify_node w.llm_outcome w.classification_elapsed s)

/-- Sequential execution of a node list by the LangGraph runtime: each node's
update is merged into the state before the next node runs; a node exception
aborts the run.  The second component logs, in order, the nodes that were
actually invoked. -/
def run_nodes (w : ExternalWorld) :
    List GNode → ClassifierState → Except Str ClassifierState × List GNode
  | [], s => (Except.ok s, [])
  | n :: rest, s =>
    match step w s n with
    | Except.error e => (Except.error e, [n])
    | Except.ok u =>
      let r := run_nodes w rest (applyUpdate s u)
      (r.1, n :: r.2)

/-- `classifier_graph.invoke` (`task_1/app/graph.py`, line 42): run the nodes
in the order given by the graph. -/
def run_classifier_graph (w : ExternalWorld) (init : ClassifierState) :
    Except Str ClassifierState × List GNode :=
  run_nodes w classifier_trace init

/-- The state in which `classify_node` runs: the initial state with the
Retrieval Stage's update merged in. -/
def state_after_retrieve (hits : List StoredHit) (elapsed : ℚ)
    (init : ClassifierState) : ClassifierState :=
  applyUpdate init (retrieve_update hits elapsed init)

/-- Errors surfaced by the HTTP layer: a 422 request-validation rejection
(raised by FastAPI/Pydantic before the handler body runs) or a 500
`HTTPException` raised by the handler's `except` clause. -/
inductive HttpError where
  | validation
  | server (detail : Str)
deriving DecidableEq, Repr

/-- `ClassifyResponse` (`task_1/app/schemas.py`, lines 34-46). -/
structure ClassifyResponse where
  predicted_label : Option Nat
  predicted_category : Option Str
  confidence : Option ℚ
  reasoning : Option Str
  text : Str
  retrieved_examples : Option (List Example)
  retrieval_time_ms : ℤ
  classification_time_ms : ℤ
deriving DecidableEq, Repr

/-- The `ClassificationHistory` row persisted by the endpoint
(`task_1/app/main.py`, lines 147-160).  `total_time_ms` is omitted: it measures
wall-clock time around the whole handler, which has no counterpart in this
embedding. -/
structure HistoryRecord where
  text : Str
  predicted_label : Option Nat
  predicted_category : Option Str
  confidence : Option ℚ
  reasoning : Option Str
  retrieved_examples : List Example
  num_retrieved_examples : Nat
  model_used : Str
  graph_version : Str
  retrieval_time_ms : ℤ
  classification_time_ms : ℤ
deriving DecidableEq, Repr

/-- The handler body of `POST /classify` (`task_1/app/main.py`, lines 115-187):
run the graph, persist a history row, and build the response; any exception
escaping the `try` block rolls the transaction back (nothing is persisted) and
becomes an `HTTPException(500, "Classification failed: ...")`.  Returns the
HTTP result, the persisted row (if any), and the log of invoked graph nodes.
`int(seconds * 1000)` truncates; durations are non-negative, so it is `floor`. -/
def classify_text (msg : Str) (include_examples : Bool) (w : ExternalWorld) :
    Except HttpError ClassifyResponse × Option HistoryRecord × List GNode :=
  match run_classifier_graph w (initial_state msg) with
  | (Except.error e, log) =>
    (Except.error (HttpError.server ("Classification failed: ".toList ++ e)), none, log)
  | (Except.ok final, log) =>
    let retrieval_time_ms : ℤ := Rat.floor (final.retrieval_time * 1000)
    let classification_time_ms : ℤ := Rat.floor (final.classification_time * 1000)
    let record : HistoryRecord :=
      { text := msg, predicted_label := final.predicted_label,
        predicted_category := final.predicted_category,
        confidence := final.confidence, reasoning := final.reasoning,
        retrieved_examples := final.retrieved_examples,
        num_retrieved_examples := final.retrieved_examples.length,
        model_used := "gpt-4.1".toList, graph_version := "v1.0".toList,
        retrieval_time_ms := retrieval_time_ms,
        classification_time_ms := classification_time_ms }
    let resp : ClassifyResponse :=
      { predicted_label := final.predicted_label,
        predicted_category := final.predicted_category,
        confidence := final.confidence, reasoning := final.reasoning,
        text := msg,
        retrieved_examples :=
          if include_examples then some final.retrieved_examples else none,
        retrieval_time_ms := retrieval_time_ms,
        classification_time_ms := classification_time_ms }
    (Except.ok resp, some record, log)

/-- `ClassifyRequest` validation (`task_1/app/schemas.py`, lines 7-22):
`message` must have `min_length=1` and `max_length=10000` (characters). -/
def validate_message (msg : Str) : Bool :=
  decide (1 ≤ msg.length) && decide (msg.length ≤ 10000)

/-- `POST /classify` including request validation: FastAPI/Pydantic rejects an
invalid body with a 422 before the handler body runs, so no graph node executes
and nothing is persisted. -/
def classify_endpoint (msg : Str) (include_examples : Bool) (w : ExternalWorld) :
    Except HttpError ClassifyResponse × Option HistoryRecord × List GNode :=
  if validate_message msg then classify_text msg include_examples w
  else (Except.error HttpError.validation, none, [])

/-- One prior message of a conversation, as the dicts built by the `/chat`
endpoint (`task_2/app/main.py`, lines 110-113). -/
structure ChatMsg where
  sender : Str
  text : Str
deriving DecidableEq, Repr

/-- Python `str.capitalize()`: first character upper-cased, the rest
lower-cased. -/
def str_capitalize : Str → Str
  | [] => []
  | c :: cs => c.toUpper :: cs.map Char.toLower

/-- One line of the formatted history (`task_2/app/nodes.py`, line 45):
`f"{sender.capitalize()}: {text}"`. -/
def format_chat_message (m : ChatMsg) : Str :=
  str_capitalize m.sender ++ ": ".toList ++ m.text

/-- The `formatted_history` computed by `retrieve_context_node`
(`task_2/app/nodes.py`, lines 40-51): the last 10 messages
(`conversation_history[-10:]`), one line each, newline-joined; an empty history
gives a fixed new-conversation marker. -/
def format_history (hist : List ChatMsg) : Str :=
  if hist.isEmpty then "This is the start of a new conversation.".toList
  else List.intercalate "\n".toList
    ((hist.drop (hist.length - 10)).map format_chat_message)

/-- `ChatbotState` (`task_2/app/state.py`).  The endpoint's initial state
(`task_2/app/main.py`, lines 116-124) sets the output fields to `""`, so they
are embedded as plain strings. -/
structure ChatbotState where
  conversation_id : Str
  user_message : Str
  conversation_history : List ChatMsg
  formatted_history : Str
  assistant_response : Str
  model_used : Str
  messages : List Str
deriving DecidableEq, Repr

/-- Merge one chat channel write (same LangGraph semantics as `applyField`). -/
def applyChatField (s : ChatbotState) (kv : String × FieldValue) : ChatbotState :=
  match kv with
  | ("conversation_id", FieldValue.strv v) => { s with conversation_id := v }
  | ("user_message", FieldValue.strv v) => { s with user_message := v }
  | ("formatted_history", FieldValue.strv v) => { s with formatted_history := v }
  | ("assistant_response", FieldValue.strv v) => { s with assistant_response := v }
  | ("model_used", FieldValue.strv v) => { s with model_used := v }
  | ("messages", FieldValue.msgs m) => { s with messages := s.messages ++ m }
  | _ => s

/-- Merge a chat node's update dict into the state. -/
def applyChatUpdate (s : ChatbotState) (u : Update) : ChatbotState :=
  u.foldl applyChatField s

/-- The log message recorded by `retrieve_context_node`
(`task_2/app/nodes.py`, lines 54-56). -/
def chat_context_message (hist : List ChatMsg) : Str :=
  "Retrieved conversation context (".toList ++ natStr hist.length ++
    " messages)".toList

/-- `retrieve_context_node` (`task_2/app/nodes.py`, lines 19-61). -/
def retrieve_context_node (state : ChatbotState) : Update :=
  [("formatted_history", FieldValue.strv (format_history state.conversation_history)),
   ("messages", FieldValue.msgs [chat_context_message state.conversation_history])]

/-- `ChatResponse` structured output (`task_2/app/nodes.py`, lines 13-16). -/
structure ChatResult where
  response : Str
deriving DecidableEq, Repr

/-- The fixed apology returned when the chat LLM call fails
(`task_2/app/nodes.py`, line 116). -/
def chat_apology : Str :=
  "I apologize, but I encountered an error generating a response. Please try again.".toList

/-- The system prompt of `generate_response_node` (`task_2/app/nodes.py`,
lines 88-98). -/
def chat_system_prompt (formatted_history : Str) : Str :=
  "You are a helpful, friendly AI assistant engaged in a conversation.\n\nPrevious conversation:\n".toList
  ++ formatted_history
  ++ "\n\nInstructions:\n- Be conversational and natural\n- Consider the conversation history when responding\n- Be helpful and informative\n- Keep responses concise but complete\n- Maintain context from previous messages".toList

/-- The user message of `generate_response_node` (`task_2/app/nodes.py`, line 100). -/
def chat_user_message (user_message : Str) : Str :=
  "User: ".toList ++ user_message

/-- `settings.openai_model` default (`task_2/app/config.py`, line 11). -/
def openai_model : Str := "gpt-4o-mini".toList

/-- `generate_response_node` (`task_2/app/nodes.py`, lines 64-125).
`llm_outcome` is the outcome of the external provider call; the `try`/`except`
at lines 103-116 replaces any failure by the fixed apology string, so the node
always returns an update and never raises. -/
def generate_response_node (llm_outcome : Except Str ChatResult)
    (state : ChatbotState) : Update :=
  let assistant_response :=
    match llm_outcome with
    | Except.ok r => r.response
    | Except.error _ => chat_apology
  [("assistant_response", FieldValue.strv assistant_response),
   ("model_used", FieldValue.strv openai_model),
   ("messages", FieldValue.msgs [assistant_response])]

/-- The nodes of the chatbot graph (`task_2/app/graph.py`, lines 13-14). -/
inductive CNode where
  | retrieve_context
  | generate_response
deriving DecidableEq, BEq, Repr

/-- The edges of the chatbot graph (`task_2/app/graph.py`, lines 17-19). -/
def chatbot_edges : List (CNode × Option CNode) :=
  [(CNode.retrieve_context, some CNode.generate_response),
   (CNode.generate_response, none)]

/-- `set_entry_point("retrieve_context")` (`task_2/app/graph.py`, line 17). -/
def chatbot_entry : CNode := CNode.retrieve_context

/-- Successor of a chatbot node under the graph's edges. -/
def chat_next (n : CNode) : Option CNode :=
  (List.lookup n chatbot_edges).join

/-- The execution order of the compiled chatbot graph. -/
def chatbot_trace : List CNode :=
  trace_from chat_next 2 chatbot_entry

/-- Dispatch one chatbot graph node to its implementation.  Both chat nodes are
total: `retrieve_context_node` makes no external call and
`generate_response_node` absorbs provider failures. -/
def chat_step (llm : Except Str ChatResult) (s : ChatbotState) : CNode → Update
  | CNode.retrieve_context => retrieve_context_node s
  | CNode.generate_response => generate_response_node llm s

/-- Sequential execution of the chatbot node list. -/
def run_chat_nodes (llm : Except Str ChatResult) :
    List CNode → ChatbotState → ChatbotState × List CNode
  | [], s => (s, [])
  | n :: rest, s =>
    let r := run_chat_nodes llm rest (applyChatUpdate s (chat_step llm s n))
    (r.1, n :: r.2)

/-- `chatbot_graph.invoke` (`task_2/app/graph.py`, line 22). -/
def run_chat_graph (llm : Except Str ChatResult) (init : ChatbotState) :
    ChatbotState × List CNode :=
  run_chat_nodes llm chatbot_trace init

/-! ### Properties of the similarity search -/

lemma mem_indexed_points_from_score :
    ∀ (i : Nat) (l : List StoredHit) (p : ScoredPoint),
      p ∈ indexed_points_from i l → ∃ h ∈ l, p.score = h.score := by
  intro i l
  induction l generalizing i with
  | nil => intro p hp; simp [indexed_points_from] at hp
  | cons a l ih =>
    intro p hp
    simp only [indexed_points_from, List.mem_cons] at hp
    rcases hp with h | h
    · exact ⟨a, List.mem_cons_self a l, by rw [h]⟩
    · obtain ⟨b, hb, hs⟩ := ih (i + 1) p h
      exact ⟨b, List.mem_cons_of_mem a hb, hs⟩

lemma le_id_of_mem_indexed_points_from :
    ∀ (i : Nat) (l : List StoredHit) (p : ScoredPoint),
      p ∈ indexed_points_from i l → i ≤ p.id := by
  intro i l
  induction l generalizing i with
  | nil => intro p hp; simp [indexed_points_from] at hp
  | cons a l ih =>
    intro p hp
    simp only [indexed_points_from, List.mem_cons] at hp
    rcases hp with h | h
    · rw [h]
    · exact Nat.le_of_succ_le (ih (i + 1) p h)

lemma pairwise_id_lt_indexed_points_from :
    ∀ (i : Nat) (l : List StoredHit),
      List.Pairwise (fun a b : ScoredPoint => a.id < b.id) (indexed_points_from i l) := by
  intro i l
  induction l generalizing i with
  | nil => exact List.Pairwise.nil
  | cons a l ih =>
    simp only [indexed_points_from]
    refine List.Pairwise.cons ?_ (ih (i + 1))
    intro b hb
    exact Nat.lt_of_succ_le (le_id_of_mem_indexed_points_from (i + 1) l b hb)

lemma pairwise_rank_ranked (hits : List StoredHit) (limit : Nat) (t : ℚ) :
    List.Pairwise rank_before (ranked_points hits limit t) :=
  List.Pairwise.sublist (List.take_sublist _ _)
    (List.sorted_insertionSort rank_before (passing_points hits t))

lemma pairwise_ne_id_ranked (hits : List StoredHit) (limit : Nat) (t : ℚ) :
    List.Pairwise (fun a b : ScoredPoint => a.id ≠ b.id) (ranked_points hits limit t) := by
  have h1 : List.Pairwise (fun a b : ScoredPoint => a.id ≠ b.id) (indexed_points hits) :=
    (pairwise_id_lt_indexed_points_from 0 hits).imp (fun h => Nat.ne_of_lt h)
  have h2 : List.Pairwise (fun a b : ScoredPoint => a.id ≠ b.id) (passing_points hits t) :=
    List.Pairwise.sublist (List.filter_sublist _) h1
  have h3 := ((List.perm_insertionSort rank_before (passing_points hits t)).pairwise_iff
      (fun hab => Ne.symm hab)).2 h2
  exact List.Pairwise.sublist (List.take_sublist _ _) h3

lemma mem_ranked_points_score (hits : List StoredHit) (limit : Nat) (t : ℚ)
    (p : ScoredPoint) (hp : p ∈ ranked_points hits limit t) : t ≤ p.score := by
  have h1 : p ∈ List.insertionSort rank_before (passing_points hits t) :=
    List.mem_of_mem_take hp
  have h2 : p ∈ passing_points hits t :=
    (List.perm_insertionSort rank_before (passing_points hits t)).mem_iff.1 h1
  have h3 := (List.mem_filter.1 h2).2
  exact of_decide_eq_true h3

lemma search_similar_eq_nil (hits : List StoredHit) (limit : Nat) (t : ℚ)
    (hbelow : ∀ h ∈ hits, h.score < t) : search_similar hits limit t = [] := by
  have hpass : passing_points hits t = [] := by
    unfold passing_points
    rw [List.filter_eq_nil_iff]
    intro p hp
    obtain ⟨h, hh, hs⟩ := mem_indexed_points_from_score 0 hits p hp
    simp only [decide_eq_true_eq, not_le, hs]
    exact hbelow h hh
  unfold search_similar ranked_points
  rw [hpass]
  simp

/-! ### The claims -/

/-- C1: whenever the LLM provider call raises or returns schema-invalid output
(the `Except.error` outcome), the Generation Stage absorbs the failure.  For
the classification variant the merged state carries `predicted_label = 0`
(= the first/default category `settings.categories[0] = "Politics"`),
`confidence = 0` and a diagnostic reasoning string naming the failure; for the
chat variant the response is the fixed apology string.  The stage never raises:
once retrieval succeeded, the classifier run always ends in `Except.ok`, and a
chat run always produces the apology on provider failure. -/
theorem generation_fallback_policy :
    (∀ (e : Str) (ct : ℚ) (s : ClassifierState),
      (applyUpdate s (classify_node (Except.error e) ct s)).predicted_label = some 0
      ∧ (applyUpdate s (classify_node (Except.error e) ct s)).predicted_category
          = some (categories_get 0)
      ∧ categories_get 0 = "Politics".toList
      ∧ (applyUpdate s (classify_node (Except.error e) ct s)).confidence = some 0
      ∧ (applyUpdate s (classify_node (Except.error e) ct s)).reasoning
          = some ("Error during classification: ".toList ++ e))
    ∧ (∀ (e : Str) (s : ChatbotState),
        (applyChatUpdate s (generate_response_node (Except.error e) s)).assistant_response
          = chat_apology)
    ∧ (∀ (hits : List StoredHit) (llm : Except Str ClassificationResult) (rt ct : ℚ)
        (init : ClassifierState),
        ((run_classifier_graph ⟨Except.ok (), hits, llm, rt, ct⟩ init).1).isOk = true)
    ∧ (∀ (e : Str) (init : ChatbotState),
        (run_chat_graph (Except.error e) init).1.assistant_response = chat_apology) :=
  ⟨fun _ _ _ => ⟨rfl, rfl, rfl, rfl, rfl⟩,
   fun _ _ => rfl,
   fun _ _ _ _ _ => rfl,
   fun _ _ => rfl⟩

/-- C2: if the embedding provider or the similarity index raises during the
Retrieval Stage (the `Except.error` outcome), the error propagates and aborts
the run: the Generation Stage node is never invoked, the endpoint persists no
history record, and the caller receives a terminal 500 error. -/
theorem retrieval_failure_aborts_run (e : Str) (hits : List StoredHit)
    (llm : Except Str ClassificationResult) (rt ct : ℚ) (msg : Str)
    (include_examples : Bool) :
    run_classifier_graph ⟨Except.error e, hits, llm, rt, ct⟩ (initial_state msg)
      = (Except.error e, [GNode.retrieve])
    ∧ GNode.classify ∉
        (run_classifier_graph ⟨Except.error e, hits, llm, rt, ct⟩ (initial_state msg)).2
    ∧ classify_text msg include_examples ⟨Except.error e, hits, llm, rt, ct⟩
      = (Except.error (HttpError.server ("Classification failed: ".toList ++ e)),
         none, [GNode.retrieve]) := by
  refine ⟨rfl, ?_, rfl⟩
  show GNode.classify ∉ [GNode.retrieve]
  simp

/-- C3: both graphs execute their two stages in the fixed order Retrieve then
Generate: the compiled traces are exactly `[retrieve, classify]` and
`[retrieve_context, generate_response]`, and on a run the Generation node is
applied to the post-retrieval state, in which the retrieved examples are
already fully materialized. -/
theorem orchestrator_stage_order :
    classifier_trace = [GNode.retrieve, GNode.classify]
    ∧ chatbot_trace = [CNode.retrieve_context, CNode.generate_response]
    ∧ (∀ (hits : List StoredHit) (llm : Except Str ClassificationResult) (rt ct : ℚ)
        (init : ClassifierState),
        (state_after_retrieve hits rt init).retrieved_examples
          = search_similar hits 5 (3 / 5)
        ∧ run_classifier_graph ⟨Except.ok (), hits, llm, rt, ct⟩ init
          = (Except.ok (applyUpdate (state_after_retrieve hits rt init)
              (classify_node llm ct (state_after_retrieve hits rt init))),
             [GNode.retrieve, GNode.classify])) :=
  ⟨rfl, rfl, fun _ _ _ _ _ => ⟨rfl, rfl⟩⟩

/-- C4: for every score threshold in [0, 1] and index contents, the search
result contains no example whose similarity score is strictly below the
threshold. -/
theorem retrieval_respects_threshold (hits : List StoredHit) (limit : Nat) (t : ℚ)
    (ht0 : 0 ≤ t) (ht1 : t ≤ 1) :
    ∀ e ∈ search_similar hits limit t, t ≤ e.score := by
  intro ex hex
  obtain ⟨p, hp, rfl⟩ := List.mem_map.1 hex
  exact mem_ranked_points_score hits limit t p hp

theorem retrieval_respects_threshold_witness :
    (0 : ℚ) ≤ (Example.mk "a".toList "a".toList 1 "Sport".toList 1).score :=
  retrieval_respects_threshold
    [StoredHit.mk "a".toList "a".toList 1 "Sport".toList 1] 5 0
    (by norm_num) (by norm_num)
    (Example.mk "a".toList "a".toList 1 "Sport".toList 1) (by decide)

/-- C5: the search result is ordered by strictly descending similarity score,
with ties broken stably by index insertion order: the ranked points are
pairwise ordered by (score descending, insertion index ascending), and the
returned example sequence is pairwise ordered by descending score. -/
theorem retrieval_output_sorted (hits : List StoredHit) (limit : Nat) (t : ℚ) :
    List.Pairwise (fun a b : ScoredPoint =>
        b.score < a.score ∨ (a.score = b.score ∧ a.id < b.id))
      (ranked_points hits limit t)
    ∧ search_similar hits limit t = (ranked_points hits limit t).map toExample
    ∧ List.Pairwise (fun a b : Example => b.score ≤ a.score)
        (search_similar hits limit t) := by
  refine ⟨?_, rfl, ?_⟩
  · have hs := pairwise_rank_ranked hits limit t
    have hn := pairwise_ne_id_ranked hits limit t
    refine (hs.and hn).imp ?_
    intro a b h
    rcases h with ⟨hr | ⟨heq, hle⟩, hne⟩
    · exact Or.inl hr
    · exact Or.inr ⟨heq, lt_of_le_of_ne hle hne⟩
  · have hs := pairwise_rank_ranked hits limit t
    unfold search_similar
    refine List.pairwise_map.2 (hs.imp ?_)
    intro a b h
    rcases h with h | ⟨heq, _⟩
    · exact le_of_lt h
    · exact le_of_eq heq.symm

/-- C6: when zero neighbors pass the threshold the Retrieval Stage returns the
empty sequence and this is not an error: the pipeline still invokes the
Generation node, the system prompt it builds states that no similar examples
were found, and the run completes with a result (the predicted label is set). -/
theorem empty_retrieval_tolerated (hits : List StoredHit)
    (llm : Except Str ClassificationResult) (rt ct : ℚ) (msg : Str)
    (hbelow : ∀ h ∈ hits, h.score < 3 / 5) :
    search_similar hits 5 (3 / 5) = []
    ∧ format_examples [] = "No similar examples found.".toList
    ∧ (∃ a b, classify_system_prompt []
        = a ++ "No similar examples found.".toList ++ b)
    ∧ (run_classifier_graph ⟨Except.ok (), hits, llm, rt, ct⟩ (initial_state msg)).2
        = [GNode.retrieve, GNode.classify]
    ∧ ((run_classifier_graph ⟨Except.ok (), hits, llm, rt, ct⟩ (initial_state msg)).1).isOk
        = true
    ∧ (match (run_classifier_graph ⟨Except.ok (), hits, llm, rt, ct⟩ (initial_state msg)).1 with
       | Except.ok final => final.predicted_label.isSome
       | Except.error _ => false) = true := by
  refine ⟨search_similar_eq_nil hits 5 (3 / 5) hbelow, rfl, ⟨_, _, rfl⟩, rfl, rfl, ?_⟩
  cases llm <;> rfl

theorem empty_retrieval_tolerated_witness :
    search_similar [StoredHit.mk "a".toList "a".toList 1 "Sport".toList 0] 5 (3 / 5)
      = []
    ∧ (run_classifier_graph
        ⟨Except.ok (), [StoredHit.mk "a".toList "a".toList 1 "Sport".toList 0],
         Except.ok (ClassificationResult.mk 2 "Technology".toList 1 "ok".toList), 0, 0⟩
        (initial_state "x".toList)).2
      = [GNode.retrieve, GNode.classify] :=
  ⟨(empty_retrieval_tolerated
      [StoredHit.mk "a".toList "a".toList 1 "Sport".toList 0]
      (Except.ok (ClassificationResult.mk 2 "Technology".toList 1 "ok".toList)) 0 0
      "x".toList (by intro h hh; rw [List.mem_singleton.1 hh]; norm_num)).1,
   (empty_retrieval_tolerated
      [StoredHit.mk "a".toList "a".toList 1 "Sport".toList 0]
      (Except.ok (ClassificationResult.mk 2 "Technology".toList 1 "ok".toList)) 0 0
      "x".toList (by intro h hh; rw [List.mem_singleton.1 hh]; norm_num)).2.2.2.1⟩

/-- C7 (amended): apart from the shared append-only `messages` log channel,
each state field is written by at most one stage: the Retrieval Stage's update
dict has exactly the keys `retrieved_examples`, `retrieval_time`, `messages`;
the Generation Stage's update dict has exactly the keys `predicted_label`,
`predicted_category`, `confidence`, `reasoning`, `classification_time`,
`messages`; the only key they share is `messages`; and neither stage writes
the input `text` field, which is unchanged by applying either update. -/
theorem state_field_writers (hits : List StoredHit) (rt : ℚ)
    (llm : Except Str ClassificationResult) (ct : ℚ) (s : ClassifierState) :
    (retrieve_update hits rt s).map Prod.fst
      = ["retrieved_examples", "retrieval_time", "messages"]
    ∧ (classify_node llm ct s).map Prod.fst
      = ["predicted_label", "predicted_category", "confidence", "reasoning",
         "classification_time", "messages"]
    ∧ ((retrieve_update hits rt s).map Prod.fst).filter
        (fun k => ((classify_node llm ct s).map Prod.fst).contains k) = ["messages"]
    ∧ "text" ∉ (retrieve_update hits rt s).map Prod.fst
    ∧ "text" ∉ (classify_node llm ct s).map Prod.fst
    ∧ (applyUpdate s (retrieve_update hits rt s)).text = s.text
    ∧ (applyUpdate s (classify_node llm ct s)).text = s.text := by
  cases llm <;>
    exact ⟨rfl, rfl, rfl,
      (by decide :
        "text" ∉ (["retrieved_examples", "retrieval_time", "messages"] : List String)),
      (by decide :
        "text" ∉ (["predicted_label", "predicted_category", "confidence", "reasoning",
                   "classification_time", "messages"] : List String)),
      rfl, rfl⟩

/-- C7 (counterexample to the claim as stated): the `messages` field of the
state is written by both stages — the Retrieval Stage's update dict contains
the key `messages`, which is not among the retrieved-examples/retrieval-timing
fields, and the Generation Stage's update dict contains it too, so it is not
the case that each state field is written by exactly one stage. -/
theorem state_field_writers_counterexample :
    "messages" ∈ (retrieve_update [] 0 (initial_state [])).map Prod.fst
    ∧ "messages" ∈ (classify_node (Except.error []) 0 (initial_state [])).map Prod.fst
    ∧ "messages" ∉ ["retrieved_examples", "retrieval_time"]
    ∧ "messages" ∉ ["predicted_label", "predicted_category", "confidence",
                    "reasoning", "classification_time"] := by
  refine ⟨?_, ?_, ?_, ?_⟩ <;> decide

/-- C8: the user message sent to the LLM provider consists of a fixed header
followed by the literal input text truncated to at most 2000 characters, it is
untruncated for inputs of at most 2000 characters, and it is one of the
messages passed to the provider. -/
theorem classification_prompt_truncation (t : Str) (s : ClassifierState) :
    classify_user_message t = "Classify this article:\n\n".toList ++ t.take 2000
    ∧ (t.take 2000).length ≤ 2000
    ∧ (t.length ≤ 2000 → t.take 2000 = t)
    ∧ PromptMsg.human (classify_user_message s.text) ∈ classify_prompt_messages s := by
  refine ⟨rfl, List.length_take_le 2000 t, fun h => List.take_of_length_le h, ?_⟩
  simp [classify_prompt_messages]

theorem classification_prompt_truncation_witness :
    ("hi".toList).take 2000 = "hi".toList
    ∧ classify_user_message "hi".toList
      = "Classify this article:\n\n".toList ++ ("hi".toList).take 2000 :=
  ⟨(classification_prompt_truncation "hi".toList (initial_state [])).2.2.1 (by decide),
   (classification_prompt_truncation "hi".toList (initial_state [])).1⟩

/-- C9: a request whose message is empty or longer than 10000 characters fails
Pydantic validation, so it is rejected with a 422 before the pipeline starts:
no graph node executes and no history record is persisted. -/
theorem validation_rejects_before_pipeline (msg : Str) (include_examples : Bool)
    (w : ExternalWorld) (h : msg.length = 0 ∨ 10000 < msg.length) :
    validate_message msg = false
    ∧ classify_endpoint msg include_examples w
      = (Except.error HttpError.validation, none, []) := by
  have hv : validate_message msg = false := by
    rcases h with h | h
    · simp [validate_message, h]
    · simp only [validate_message, Bool.and_eq_false_iff, decide_eq_false_iff_not, not_le]
      omega
  refine ⟨hv, ?_⟩
  simp [classify_endpoint, hv]

theorem validation_rejects_before_pipeline_witness :
    classify_endpoint [] false ⟨Except.ok (), [], Except.error [], 0, 0⟩
      = (Except.error HttpError.validation, none, []) :=
  (validation_rejects_before_pipeline [] false
    ⟨Except.ok (), [], Except.error [], 0, 0⟩ (Or.inl rfl)).2

/-- C10: the chat context stage formats at most the last 10 messages of the
conversation history (older messages are dropped): for a nonempty history the
formatted history is exactly the newline-joined rendering of the final
`min 10 (length)` messages (a suffix of the history), it is embedded verbatim
in the system prompt, and an empty history yields the fixed new-conversation
marker. -/
theorem chat_history_window (hist : List ChatMsg) :
    format_history [] = "This is the start of a new conversation.".toList
    ∧ (hist ≠ [] →
        format_history hist
          = List.intercalate "\n".toList
              ((hist.drop (hist.length - 10)).map format_chat_message)
        ∧ (hist.drop (hist.length - 10)).length ≤ 10
        ∧ hist.take (hist.length - 10) ++ hist.drop (hist.length - 10) = hist
        ∧ (∃ a b, chat_system_prompt (format_history hist)
            = a ++ format_history hist ++ b)) := by
  refine ⟨rfl, fun hne => ⟨?_, ?_, List.take_append_drop _ _, ⟨_, _, rfl⟩⟩⟩
  · match hist, hne with
    | a :: l, _ => rfl
  · rw [List.length_drop]
    omega

theorem chat_history_window_witness :
    format_history [] = "This is the start of a new conversation.".toList
    ∧ format_history [ChatMsg.mk "user".toList "hi".toList]
      = List.intercalate "\n".toList
          (([ChatMsg.mk "user".toList "hi".toList].drop
              ([ChatMsg.mk "user".toList "hi".toList].length - 10)).map
            format_chat_message) :=
  ⟨(chat_history_window []).1,
   ((chat_history_window [ChatMsg.mk "user".toList "hi".toList]).2 (by simp)).1⟩
